import Mathlib

/-!
NetGuard AI anomaly-detection core, shallowly embedded from the Python
source (`anomaly_detection.py`, `server.py`, `data_upload.py`,
`alerting.py`).  Timestamps are abstracted as natural numbers with an
injective serialization standing for `Timestamp.isoformat`; numeric
columns (`float64` in the source) are modelled as rationals, since every
property at stake is about order comparisons, not binary rounding.

The two fitted statistical models are external library calls
(`prophet.Prophet` and `sklearn.IsolationForest` together with
`StandardScaler`), so they enter the embedding as function-valued
parameters: a forecaster `F` producing one `(yhat, yhat_lower,
yhat_upper)` triple per input point, and an isolation-forest fitter `L`
taking the random seed and the feature rows and producing the `+1 / -1`
labels.  Everything the repository itself computes around those two
calls — the temporal flag, the OR-merge, the record formatting, the
column mapping, the retry loop, the alerting control flow — is embedded
directly from the source.
-/

namespace NetGuard

/-- A normalized input row, as produced by `preprocess_data`: parsed
timestamp (abstracted as a natural number), station id, traffic volume
and the derived calendar features `hour` and `day_of_week`. -/
structure NormRow where
  timestamp : Nat
  cell_id : Nat
  traffic_volume : ℚ
  hour : Nat
  day_of_week : Nat
  deriving DecidableEq

/-- A row of the working dataframe inside `detect_anomalies` after the
forecast columns (`yhat`, `yhat_lower`, `yhat_upper`) and the
isolation-forest label (`iso_anomaly`, here `iso_label`) have been
merged in. -/
structure DetRow where
  timestamp : Nat
  cell_id : Nat
  traffic_volume : ℚ
  yhat : ℚ
  yhat_lower : ℚ
  yhat_upper : ℚ
  iso_label : Int
  deriving DecidableEq

/-- Serialization of the abstract timestamp, standing for
`pandas.Timestamp.isoformat`. -/
def isoformat (t : Nat) : String := toString t

/-- Line 31 of `anomaly_detection.py`:
`(df['traffic_volume'] < df['yhat_lower']) | (df['traffic_volume'] > df['yhat_upper'])`. -/
def temporal_anomaly (r : DetRow) : Bool :=
  decide (r.traffic_volume < r.yhat_lower) || decide (r.yhat_upper < r.traffic_volume)

/-- The row-selection predicate of line 41:
`(df['temporal_anomaly'] == True) | (df['iso_anomaly'] == -1)`. -/
def is_anomalous (r : DetRow) : Bool :=
  temporal_anomaly r || decide (r.iso_label = -1)

/-- `anomalies_df` of line 41: the sub-dataframe of rows on which at
least one of the two detectors fired, in input order. -/
def anomalies_df (ds : List DetRow) : List DetRow :=
  ds.filter is_anomalous

/-- Two-decimal rendering of a rational, standing for Python `:.2f`
formatting (ties are resolved by `round`; the source formats binary
floats, whose tie-breaking is immaterial to every claim below). -/
def format2 (q : ℚ) : String :=
  let c : Int := round (q * 100)
  let n : Nat := c.natAbs
  let frac : Nat := n % 100
  (if c < 0 then "-" else "") ++ toString (n / 100) ++ "." ++
    (if frac < 10 then "0" else "") ++ toString frac

/-- The `details` f-string of line 50: observed volume and interval
bounds, each to two decimal places. -/
def details_str (r : DetRow) : String :=
  "Observed: " ++ format2 r.traffic_volume ++ ", Expected Range: [" ++
    format2 r.yhat_lower ++ ", " ++ format2 r.yhat_upper ++ "]"

/-- The terminal artifact appended to `anomaly_list` (lines 45–52). -/
structure AnomalyRecord where
  base_station_id : Nat
  anomaly_type : String
  timestamp : String
  severity : String
  details : String
  deriving DecidableEq

/-- One iteration of the formatting loop (lines 44–52): builds the
record for one anomalous row. -/
def mkAnomalyRecord (r : DetRow) : AnomalyRecord :=
  { base_station_id := r.cell_id
    anomaly_type := if temporal_anomaly r then "Temporal Shift" else "Unusual Traffic Spike/Drop"
    timestamp := isoformat r.timestamp
    severity := "high"
    details := details_str r }

/-- Lines 41–54 of `detect_anomalies`: select the anomalous rows and
format each into an `AnomalyRecord`, preserving input order. -/
def combineAndFormat (ds : List DetRow) : List AnomalyRecord :=
  (anomalies_df ds).map mkAnomalyRecord

/-- Line 22: the `(ds, y)` series handed to the forecaster. -/
def prophet_df (rows : List NormRow) : List (Nat × ℚ) :=
  rows.map fun r => (r.timestamp, r.traffic_volume)

/-- Line 35: the `['traffic_volume', 'hour']` feature rows handed to the
scaler and isolation forest. -/
def iso_features (rows : List NormRow) : List (ℚ × Nat) :=
  rows.map fun r => (r.traffic_volume, r.hour)

/-- Lines 28–38: merge the forecast triples and the isolation-forest
labels into the working dataframe, row by row. -/
def buildDetRows (rows : List NormRow) (forecast : List (ℚ × ℚ × ℚ))
    (labels : List Int) : List DetRow :=
  (rows.zip (forecast.zip labels)).map fun p =>
    { timestamp := p.1.timestamp
      cell_id := p.1.cell_id
      traffic_volume := p.1.traffic_volume
      yhat := p.2.1.1
      yhat_lower := p.2.1.2.1
      yhat_upper := p.2.1.2.2
      iso_label := p.2.2 }

/-- The working dataframe of `detect_anomalies` for forecaster `F`,
isolation-forest fitter `L`, random seed `seed` and input `rows`. -/
def det_rows (F : List (Nat × ℚ) → List (ℚ × ℚ × ℚ))
    (L : Nat → List (ℚ × Nat) → List Int) (seed : Nat)
    (rows : List NormRow) : List DetRow :=
  buildDetRows rows (F (prophet_df rows)) (L seed (iso_features rows))

/-- `detect_anomalies` of `anomaly_detection.py`, parameterized by the
two external model fitters.  The source fixes the isolation forest seed
to `42` (`random_state=42`, line 37); the forecaster takes no seed. -/
def detect_anomalies (F : List (Nat × ℚ) → List (ℚ × ℚ × ℚ))
    (L : Nat → List (ℚ × Nat) → List Int)
    (rows : List NormRow) : List AnomalyRecord :=
  combineAndFormat (det_rows F L 42 rows)

/-! Column mapping and schema validation, shared verbatim by
`server.analyze_traffic` and `data_upload.handle_upload`. -/

/-- The `column_mapping` rename applied to one (already stripped)
column name. -/
def mapColumn (s : String) : String :=
  if s = "Time" then "timestamp"
  else if s = "Cell_ID" then "cell_id"
  else if s = "Total _Traffic(GigaBytes)" then "traffic_volume"
  else s

/-- `df.columns.str.strip()` followed by `df.rename(columns=column_mapping)`. -/
def normalizeColumns (cols : List String) : List String :=
  (cols.map String.trim).map mapColumn

def required_columns : List String := ["timestamp", "cell_id", "traffic_volume"]

/-- `all(col in df.columns for col in required_columns)`. -/
def hasRequiredColumns (cols : List String) : Bool :=
  required_columns.all fun c => cols.contains c

/-- The success payload of `/api/analyze`: anomaly records plus the
`(timestamp, traffic_volume)` chart series with ISO timestamps. -/
structure AnalyzeOutput where
  anomalies : List AnomalyRecord
  chartData : List (String × ℚ)
  deriving DecidableEq

/-- Lines 85–90 of `server.py`: the chart series. -/
def chart_data (rows : List NormRow) : List (String × ℚ) :=
  rows.map fun r => (isoformat r.timestamp, r.traffic_volume)

/-- The post-parse phase of `server.analyze_traffic`: `cols` are the
parsed dataframe column labels, `rows` its content in normalized form
(only consulted when the schema check passes, as in the source, where
`preprocess_data` and `detect_anomalies` run after the column check). -/
def analyze_traffic (F : List (Nat × ℚ) → List (ℚ × ℚ × ℚ))
    (L : Nat → List (ℚ × Nat) → List Int)
    (cols : List String) (rows : List NormRow) : Except String AnalyzeOutput :=
  if hasRequiredColumns (normalizeColumns cols) then
    Except.ok { anomalies := detect_anomalies F L rows, chartData := chart_data rows }
  else
    Except.error "Dataset must contain the required columns"

/-- The post-parse phase of `data_upload.handle_upload`: returns the
renamed dataframe on success and `None` (here `none`) when a required
column is missing after mapping. -/
def handle_upload (cols : List String) (rows : List NormRow) :
    Option (List String × List NormRow) :=
  if hasRequiredColumns (normalizeColumns cols) then
    some (normalizeColumns cols, rows)
  else
    none

/-! Alerting collaborator (`alerting.py`) and the reporting endpoint
(`server.send_alert_report`), with Python exception propagation made
explicit. -/

/-- The exceptions relevant to the alerting code paths. -/
inductive PyExn where
  | nameError
  | httpError
  deriving DecidableEq

/-- Outcome of running a Python fragment: a value, or a propagating
exception. -/
inductive PyResult (α : Type) where
  | ok (a : α)
  | exn (e : PyExn)
  deriving DecidableEq

/-- A `try: body except HttpError: handler` block: only `HttpError` is
caught; every other exception propagates. -/
def tryExceptHttpError {α : Type} (body : PyResult α) (handler : PyResult α) : PyResult α :=
  match body with
  | .exn .httpError => handler
  | r => r

/-- A Python return value of `send_email_alert`: `None` (the early
return for an empty list) or a boolean status. -/
inductive RetVal where
  | retNone
  | retBool (b : Bool)
  deriving DecidableEq

/-- `send_email_alert` of `alerting.py`.  `credsOutcome` abstracts
`get_credentials()` (file and OAuth I/O, called before the `try`).  The
second component records whether the Gmail `send` call was reached.

Control flow from the source: an empty `anomalies` list returns `None`
at once; otherwise, inside the `try`, after `build(...)` the line
`message = MIMEMultipart()` executes — but the module imports only
`MIMEText` and never binds the name `MIMEMultipart`, so under Python
name resolution this raises `NameError` before any message is
constructed or sent, and `except HttpError` does not match it. -/
def send_email_alert (anomalies : List AnomalyRecord)
    (credsOutcome : PyResult Unit) : PyResult RetVal × Bool :=
  if anomalies.isEmpty then
    (PyResult.ok RetVal.retNone, false)
  else
    match credsOutcome with
    | .exn e => (.exn e, false)
    | .ok _ =>
      (tryExceptHttpError (PyResult.exn PyExn.nameError)
        (PyResult.ok (RetVal.retBool false)), false)

/-- An HTTP response of the Flask endpoint: status code and message. -/
structure Response where
  status : Nat
  body : String
  deriving DecidableEq

/-- The retry loop of `send_alert_report` (lines 24–35): up to three
fetch attempts at indices 0, 1, 2; `time.sleep(3)` runs after a failed
attempt except the last.  Returns the fetched value (if any) and the
list of delays slept, in order. -/
def fetchPhase {α : Type} (fetch : Nat → Option α) : Option α × List Nat :=
  match fetch 0 with
  | some v => (some v, [])
  | none =>
    match fetch 1 with
    | some v => (some v, [3])
    | none =>
      match fetch 2 with
      | some v => (some v, [3, 3])
      | none => (none, [3, 3])

def fetch_fail_msg : String :=
  "Failed to fetch live alerts from the main server after multiple attempts."

/-- `send_alert_report` of `server.py`.  `email` is `data.get('email')`
(`none` for a missing key; an empty string is falsy, like the source's
`if not recipient_email`); `fetch i` is the outcome of the `i`-th HTTP
attempt; `credsOutcome` is passed through to the alerting collaborator.
The second component records whether `send_email_alert` was called. -/
def send_alert_report (email : Option String)
    (fetch : Nat → Option (List AnomalyRecord))
    (credsOutcome : PyResult Unit) : PyResult Response × Bool :=
  match email with
  | none => (PyResult.ok ⟨400, "Email is required"⟩, false)
  | some e =>
    if e.isEmpty then (PyResult.ok ⟨400, "Email is required"⟩, false)
    else
      match (fetchPhase fetch).1 with
      | none => (PyResult.ok ⟨500, fetch_fail_msg⟩, false)
      | some alerts =>
        if alerts.isEmpty then
          (PyResult.ok ⟨200, "No active alerts to report."⟩, false)
        else
          match (send_email_alert alerts credsOutcome).1 with
          | .exn ex => (.exn ex, true)
          | .ok (.retBool true) =>
            (PyResult.ok ⟨200, "Successfully sent alert report to " ++ e ++ "."⟩, true)
          | .ok _ => (PyResult.ok ⟨500, "Failed to send email report."⟩, true)

/-! Concrete sample inputs used by the witness theorems. -/

/-- A sample normalized row: timestamp 0, station 7, volume 5, midnight. -/
def sampleRow : NormRow := ⟨0, 7, 5, 0, 0⟩

/-- A degenerate forecaster returning the interval `[0, 0]` with center
`0` for every input point. -/
def sampleF : List (Nat × ℚ) → List (ℚ × ℚ × ℚ) :=
  fun l => l.map fun _ => (0, 0, 0)

/-- A degenerate isolation-forest fitter labelling every row an inlier. -/
def sampleL : Nat → List (ℚ × Nat) → List Int :=
  fun _ l => l.map fun _ => 1

/-- The merged working row arising from `sampleRow` under `sampleF` and
`sampleL`: volume 5 against the interval `[0, 0]`, inlier label. -/
def sampleDetRow : DetRow := ⟨0, 7, 5, 0, 0, 0, 1⟩

/-- The same row with its forecast interval widened to `[0, 10]`. -/
def wideDetRow : DetRow := ⟨0, 7, 5, 0, 0, 10, 1⟩

/-- The anomaly record produced for `sampleDetRow`. -/
def sampleRecord : AnomalyRecord := mkAnomalyRecord sampleDetRow

/-- C1: a row is selected into the anomaly sub-dataframe (line 41), and
hence contributes exactly one record to the list returned by
`detect_anomalies`, iff its traffic volume lies strictly outside
`[yhat_lower, yhat_upper]` or its isolation-forest label is `-1` (OR
semantics).  Stated both as a refinement of the selection predicate by
the spec-level predicate and as a membership characterization. -/
theorem mem_anomalies_df_iff (ds : List DetRow) (r : DetRow) :
    (combineAndFormat ds =
      (ds.filter fun x =>
        decide ((x.traffic_volume < x.yhat_lower ∨ x.yhat_upper < x.traffic_volume) ∨
          x.iso_label = -1)).map mkAnomalyRecord) ∧
    (r ∈ anomalies_df ds ↔
      r ∈ ds ∧ ((r.traffic_volume < r.yhat_lower ∨ r.yhat_upper < r.traffic_volume) ∨
        r.iso_label = -1)) := by
  constructor
  · unfold combineAndFormat anomalies_df
    congr 1
    apply List.filter_congr
    intro x _
    simp [is_anomalous, temporal_anomaly]
  · simp [anomalies_df, List.mem_filter, is_anomalous, temporal_anomaly]

/-- C2: every record produced by `detect_anomalies` comes from a merged
row of the working dataframe, and its `anomaly_type` is
`"Temporal Shift"` whenever that row's temporal flag fired (temporal
takes priority), and `"Unusual Traffic Spike/Drop"` otherwise — in
which case the isolation-forest label fired. -/
theorem anomaly_type_priority (F : List (Nat × ℚ) → List (ℚ × ℚ × ℚ))
    (L : Nat → List (ℚ × Nat) → List Int) (rows : List NormRow)
    (rec : AnomalyRecord) (h : rec ∈ detect_anomalies F L rows) :
    ∃ d, d ∈ det_rows F L 42 rows ∧ rec = mkAnomalyRecord d ∧
      ((temporal_anomaly d = true ∧ rec.anomaly_type = "Temporal Shift") ∨
       (temporal_anomaly d = false ∧ d.iso_label = -1 ∧
         rec.anomaly_type = "Unusual Traffic Spike/Drop")) := by
  unfold detect_anomalies combineAndFormat at h
  obtain ⟨d, hd, rfl⟩ := List.mem_map.1 h
  obtain ⟨hmem, hanom⟩ := List.mem_filter.1 hd
  refine ⟨d, hmem, rfl, ?_⟩
  cases ht : temporal_anomaly d with
  | true => exact Or.inl ⟨rfl, by simp [mkAnomalyRecord, ht]⟩
  | false =>
    refine Or.inr ⟨rfl, ?_, by simp [mkAnomalyRecord, ht]⟩
    simp [is_anomalous, ht] at hanom
    exact hanom

/-- Witness for C2 at a concrete input: `sampleRow` under `sampleF` is
flagged temporally (5 lies above the interval `[0, 0]`). -/
theorem anomaly_type_priority_witness :
    ∃ d, d ∈ det_rows sampleF sampleL 42 [sampleRow] ∧
      sampleRecord = mkAnomalyRecord d ∧
      ((temporal_anomaly d = true ∧ sampleRecord.anomaly_type = "Temporal Shift") ∨
       (temporal_anomaly d = false ∧ d.iso_label = -1 ∧
         sampleRecord.anomaly_type = "Unusual Traffic Spike/Drop")) :=
  anomaly_type_priority sampleF sampleL [sampleRow] sampleRecord
    (List.mem_singleton_self sampleRecord)

/-- C3: widening every row's forecast interval while keeping the traffic
volumes fixed never increases the number of rows whose temporal flag
fires. -/
theorem temporal_count_mono (l₁ l₂ : List DetRow)
    (h : List.Forall₂
      (fun a b => a.traffic_volume = b.traffic_volume ∧
        b.yhat_lower ≤ a.yhat_lower ∧ a.yhat_upper ≤ b.yhat_upper) l₁ l₂) :
    l₂.countP temporal_anomaly ≤ l₁.countP temporal_anomaly := by
  induction h with
  | nil => exact le_rfl
  | @cons a b l₁' l₂' hab htail ih =>
    rw [List.countP_cons, List.countP_cons]
    have himp : temporal_anomaly b = true → temporal_anomaly a = true := by
      intro hb
      obtain ⟨hv, hl, hu⟩ := hab
      simp only [temporal_anomaly, Bool.or_eq_true, decide_eq_true_eq] at hb ⊢
      rcases hb with hb | hb
      · exact Or.inl (by rw [hv]; exact lt_of_lt_of_le hb hl)
      · exact Or.inr (by rw [hv]; exact lt_of_le_of_lt hu hb)
    cases hb : temporal_anomaly b with
    | false => cases ha : temporal_anomaly a <;> simp [hb, ha] <;> omega
    | true => simp [hb, himp hb]; omega

/-- Witness for C3 at a concrete input: widening `[0, 0]` to `[0, 10]`
around volume 5 drops the temporal count from 1 to 0. -/
theorem temporal_count_mono_witness :
    List.countP temporal_anomaly [wideDetRow] ≤
      List.countP temporal_anomaly [sampleDetRow] :=
  temporal_count_mono [sampleDetRow] [wideDetRow]
    (List.Forall₂.cons (by refine ⟨rfl, ?_, ?_⟩ <;> decide) List.Forall₂.nil)

/-- C4: the detection pass is a pure function of the dataset once the
two fitting procedures are fixed — the isolation forest receives the
constant seed 42 from the source, so two runs on equal datasets return
equal anomaly lists (two-run equality). -/
theorem detect_anomalies_deterministic (F : List (Nat × ℚ) → List (ℚ × ℚ × ℚ))
    (L : Nat → List (ℚ × Nat) → List Int) (rows₁ rows₂ : List NormRow)
    (h : rows₁ = rows₂) :
    detect_anomalies F L rows₁ = detect_anomalies F L rows₂ := by
  rw [h]

/-- Witness for C4 at a concrete input. -/
theorem detect_anomalies_deterministic_witness :
    detect_anomalies sampleF sampleL [sampleRow] =
      detect_anomalies sampleF sampleL [sampleRow] :=
  detect_anomalies_deterministic sampleF sampleL [sampleRow] [sampleRow] rfl

/-- C5: every record returned by `detect_anomalies` carries the
ISO-serialized timestamp of some input row; no record is fabricated with
a timestamp outside the input set. -/
theorem anomaly_timestamps_from_input (F : List (Nat × ℚ) → List (ℚ × ℚ × ℚ))
    (L : Nat → List (ℚ × Nat) → List Int) (rows : List NormRow)
    (rec : AnomalyRecord) (h : rec ∈ detect_anomalies F L rows) :
    ∃ r, r ∈ rows ∧ rec.timestamp = isoformat r.timestamp := by
  unfold detect_anomalies combineAndFormat at h
  obtain ⟨d, hd, rfl⟩ := List.mem_map.1 h
  have hmem : d ∈ det_rows F L 42 rows := (List.mem_filter.1 hd).1
  unfold det_rows buildDetRows at hmem
  obtain ⟨⟨r, q⟩, hp, rfl⟩ := List.mem_map.1 hmem
  exact ⟨r, (List.of_mem_zip hp).1, rfl⟩

/-- Witness for C5 at a concrete input. -/
theorem anomaly_timestamps_from_input_witness :
    ∃ r, r ∈ [sampleRow] ∧ sampleRecord.timestamp = isoformat r.timestamp :=
  anomaly_timestamps_from_input sampleF sampleL [sampleRow] sampleRecord
    (List.mem_singleton_self sampleRecord)

/-- C6: when a required canonical column is still missing after
stripping and renaming, `analyze_traffic` answers with the schema error
and no payload (the `Except.error` branch carries no anomalies and no
chart data), and `handle_upload` returns `none` — detection is never
attempted in either entry point. -/
theorem schema_error_blocks (F : List (Nat × ℚ) → List (ℚ × ℚ × ℚ))
    (L : Nat → List (ℚ × Nat) → List Int)
    (cols : List String) (rows : List NormRow)
    (h : hasRequiredColumns (normalizeColumns cols) = false) :
    analyze_traffic F L cols rows =
      Except.error "Dataset must contain the required columns" ∧
    handle_upload cols rows = none := by
  constructor <;> simp [analyze_traffic, handle_upload, h]

/-- Witness for C6 at a concrete input: a dataset with no columns at
all is missing every required column after mapping. -/
theorem schema_error_blocks_witness :
    analyze_traffic sampleF sampleL [] [] =
      Except.error "Dataset must contain the required columns" ∧
    handle_upload [] ([] : List NormRow) = none :=
  schema_error_blocks sampleF sampleL [] [] (by decide)

/-- C7: every record returned by `detect_anomalies` has severity
`"high"`, whatever fired and however large the deviation. -/
theorem severity_always_high (F : List (Nat × ℚ) → List (ℚ × ℚ × ℚ))
    (L : Nat → List (ℚ × Nat) → List Int) (rows : List NormRow)
    (rec : AnomalyRecord) (h : rec ∈ detect_anomalies F L rows) :
    rec.severity = "high" := by
  unfold detect_anomalies combineAndFormat at h
  obtain ⟨d, _, rfl⟩ := List.mem_map.1 h
  rfl

/-- Witness for C7 at a concrete input. -/
theorem severity_always_high_witness : sampleRecord.severity = "high" :=
  severity_always_high sampleF sampleL [sampleRow] sampleRecord
    (List.mem_singleton_self sampleRecord)

/-- Helper: whenever some fetch attempt succeeds, the endpoint does not
answer with the fetch-failure error (whatever happens downstream). -/
theorem send_alert_report_ne_fetch_fail (e : String) (he : e.isEmpty = false)
    (fetch : Nat → Option (List AnomalyRecord)) (co : PyResult Unit)
    (a : List AnomalyRecord) (hf : (fetchPhase fetch).1 = some a) :
    (send_alert_report (some e) fetch co).1 ≠
      PyResult.ok ⟨500, fetch_fail_msg⟩ := by
  by_cases ha : a.isEmpty
  · simp [send_alert_report, he, hf, ha, fetch_fail_msg]
  · cases co with
    | exn ex => simp [send_alert_report, he, hf, ha, send_email_alert]
    | ok u =>
      simp [send_alert_report, he, hf, ha, send_email_alert, tryExceptHttpError]

/-- Helper: every delay the retry loop ever sleeps equals 3 seconds. -/
theorem fetchPhase_delays {α : Type} (g : Nat → Option α) :
    ∀ d ∈ (fetchPhase g).2, d = 3 := by
  intro d hd
  unfold fetchPhase at hd
  cases hg0 : g 0 with
  | some v => simp [hg0] at hd
  | none =>
    cases hg1 : g 1 with
    | some v =>
      simp [hg0, hg1] at hd
      exact hd
    | none =>
      cases hg2 : g 2 with
      | some v =>
        simp [hg0, hg1, hg2] at hd
        exact hd
      | none =>
        simp [hg0, hg1, hg2] at hd
        exact hd

/-- C8: with a usable recipient, the reporting endpoint surfaces the
fetch-failure error exactly when all three fetch attempts (indices 0, 1,
2) fail, and every delay slept between attempts equals the fixed 3
seconds. -/
theorem retry_exhaustion (e : String) (he : e.isEmpty = false)
    (fetch : Nat → Option (List AnomalyRecord)) (co : PyResult Unit) :
    ((send_alert_report (some e) fetch co).1 =
        PyResult.ok ⟨500, fetch_fail_msg⟩ ↔
      fetch 0 = none ∧ fetch 1 = none ∧ fetch 2 = none) ∧
    ∀ d ∈ (fetchPhase fetch).2, d = 3 := by
  refine ⟨⟨?_, ?_⟩, fetchPhase_delays fetch⟩
  · intro hres
    cases h0 : fetch 0 with
    | some a =>
      exact absurd hres
        (send_alert_report_ne_fetch_fail e he fetch co a (by simp [fetchPhase, h0]))
    | none =>
      cases h1 : fetch 1 with
      | some a =>
        exact absurd hres
          (send_alert_report_ne_fetch_fail e he fetch co a (by simp [fetchPhase, h0, h1]))
      | none =>
        cases h2 : fetch 2 with
        | some a =>
          exact absurd hres
            (send_alert_report_ne_fetch_fail e he fetch co a
              (by simp [fetchPhase, h0, h1, h2]))
        | none => exact ⟨rfl, rfl, rfl⟩
  · rintro ⟨h0, h1, h2⟩
    simp [send_alert_report, he, fetchPhase, h0, h1, h2]

/-- Witness for C8 at a concrete input: every attempt fails, the 500
error is surfaced, and the two inter-attempt delays are both 3. -/
theorem retry_exhaustion_witness :
    ((send_alert_report (some "ops") (fun _ => none) (PyResult.ok ())).1 =
        PyResult.ok ⟨500, fetch_fail_msg⟩ ↔
      (fun _ : Nat => (none : Option (List AnomalyRecord))) 0 = none ∧
      (fun _ : Nat => (none : Option (List AnomalyRecord))) 1 = none ∧
      (fun _ : Nat => (none : Option (List AnomalyRecord))) 2 = none) ∧
    ∀ d ∈ (fetchPhase (fun _ : Nat => (none : Option (List AnomalyRecord)))).2, d = 3 :=
  retry_exhaustion "ops" (by decide) (fun _ => none) (PyResult.ok ())

/-- C9 (against the claim): calling `send_email_alert` with one anomaly
record and successfully acquired credentials propagates an uncaught
`NameError` — the module never imports `MIMEMultipart`, and the
`except HttpError` clause does not catch a `NameError` — so no boolean
status is ever returned on the non-empty path. -/
theorem send_email_alert_raises_uncaught :
    (send_email_alert [sampleRecord] (PyResult.ok ())).1 =
      PyResult.exn PyExn.nameError ∧
    ∀ b : Bool, (send_email_alert [sampleRecord] (PyResult.ok ())).1 ≠
      PyResult.ok (RetVal.retBool b) := by
  refine ⟨rfl, ?_⟩
  intro b
  cases b <;> decide

/-- C10: an empty anomaly list makes `send_email_alert` return at once
(`None`, no exception, delivery never contacted), and a successful fetch
of an empty live-alert list makes the reporting endpoint answer 200
without ever calling `send_email_alert`. -/
theorem empty_alerts_noop :
    (∀ co : PyResult Unit,
      send_email_alert [] co = (PyResult.ok RetVal.retNone, false)) ∧
    (∀ (e : String) (fetch : Nat → Option (List AnomalyRecord)) (co : PyResult Unit),
      e.isEmpty = false → (fetchPhase fetch).1 = some [] →
      send_alert_report (some e) fetch co =
        (PyResult.ok ⟨200, "No active alerts to report."⟩, false)) := by
  constructor
  · intro co; rfl
  · intro e fetch co he hf
    simp [send_alert_report, he, hf]

/-- Witness for C10 at a concrete input. -/
theorem empty_alerts_noop_witness :
    send_email_alert [] (PyResult.ok ()) = (PyResult.ok RetVal.retNone, false) ∧
    send_alert_report (some "ops") (fun _ => some []) (PyResult.ok ()) =
      (PyResult.ok ⟨200, "No active alerts to report."⟩, false) :=
  ⟨empty_alerts_noop.1 (PyResult.ok ()),
   empty_alerts_noop.2 "ops" (fun _ => some []) (PyResult.ok ()) (by decide) rfl⟩

end NetGuard
